import Mathlib

/-!
Shallow embedding of `src/main-git.py`, a FastAPI service tracking
cryptocurrency records, with a cache-aside metadata resolver
(`fetch_coin_metadata`) backed by Redis and the Coingecko search API.

Modelling conventions:
* A Coingecko candidate (`coin`, a JSON dict) is modelled as an association
  list `Coin := List (String × String)`; attribute values are opaque to the
  resolver (it only reads `symbol` and `name`), so they are modelled as
  strings.  Python's `dict.get(k, d)` is `dictGetD`, `dict.get(k)` is
  `dictGet`.  Python truthiness of a dict (`if not metadata`) is emptiness.
* `json.dumps` / `json.loads` are modelled by a concrete injective
  serializer `dumps` with parser `loads`, with a proved round trip; a
  serialized dict is never the empty string (Python truthiness of the
  cached string, `if cached:`).
* Redis is a list of key/entry pairs; an entry stores the serialized value
  and its absolute expiry instant (`SET ... ex=ttl` stores `now + ttl`);
  `GET` at time `now` hits iff `now < expiry`.
* The external HTTP call is an oracle `ext : String → ExtResp`: either a
  response with a status code and the parsed `data.get("coins", [])` list,
  or a transport failure (`httpx` exception, e.g. timeout), which the
  Python code does not catch.
* Failures: `Failure.http s d` is `HTTPException(status_code=s, detail=d)`;
  `Failure.netExc` is an uncaught `httpx` transport exception;
  `Failure.jsonExc` is an uncaught `json.loads` exception.
* `redis_client is None` (cache backend not available) is the boolean
  `avail` argument.
* Each operation returns its outcome together with the final cache and
  record-store states and the number of cache reads and external-source
  calls it performed.
-/

namespace CryptoService

/-- Python `str.lower()`: per-character ASCII lowering (kernel-reducible
model of `String.toLower`). -/
def strLower (s : String) : String :=
  String.mk (s.data.map Char.toLower)

/-- Python `str.upper()`: per-character ASCII uppering (kernel-reducible
model of `String.toUpper`). -/
def strUpper (s : String) : String :=
  String.mk (s.data.map Char.toUpper)

/-- A candidate record from the external source: a JSON dict, modelled as an
association list of string fields. -/
abbrev Coin := List (String × String)

/-- Python `d.get(k)`. -/
def dictGet (c : Coin) (k : String) : Option String :=
  c.lookup k

/-- Python `d.get(k, default)`. -/
def dictGetD (c : Coin) (k d : String) : String :=
  (c.lookup k).getD d

/-! ### Serialization (model of `json.dumps` / `json.loads`)

A concrete injective encoding of a dict into a string: each field string is
escaped (`\` before `\` or `;`) and terminated by `;`; each key/value pair is
prefixed by `|`; the dict ends with `.`.  `loads` is a parser that inverts
`dumps` exactly and rejects everything else (a failed parse models the
exception raised by `json.loads`). -/

/-- Escape one character of a serialized string. -/
def escC (c : Char) : List Char :=
  if c = '\\' ∨ c = ';' then ['\\', c] else [c]

/-- Encode one string: escaped characters, then the terminator `;`. -/
def encS (s : List Char) : List Char :=
  (s.map escC).flatten ++ [';']

/-- Decode one string: returns the string and the remaining input. -/
def decS : List Char → Option (List Char × List Char)
  | [] => none
  | c :: r =>
    if c = '\\' then
      match r with
      | [] => none
      | d :: r' => (decS r').map fun p => (d :: p.1, p.2)
    else if c = ';' then some ([], r)
    else (decS r).map fun p => (c :: p.1, p.2)

/-- Encode a dict: `|` before each pair, `.` at the end. -/
def encL : List (List Char × List Char) → List Char
  | [] => ['.']
  | p :: l => '|' :: (encS p.1 ++ encS p.2 ++ encL l)

/-- Decode a dict, with fuel bounding the number of pairs. -/
def decL : Nat → List Char → Option (List (List Char × List Char) × List Char)
  | _, [] => none
  | fuel, c :: r =>
    if c = '.' then some ([], r)
    else if c = '|' then
      match fuel with
      | 0 => none
      | fuel' + 1 =>
        match decS r with
        | none => none
        | some (k, r1) =>
          match decS r1 with
          | none => none
          | some (v, r2) =>
            match decL fuel' r2 with
            | none => none
            | some (l, r3) => some ((k, v) :: l, r3)
    else none

/-- Model of `json.dumps` on a candidate dict. -/
def dumps (c : Coin) : String :=
  String.mk (encL (c.map fun p => (p.1.data, p.2.data)))

/-- Model of `json.loads`: `none` models the parse exception. -/
def loads (s : String) : Option Coin :=
  match decL s.data.length s.data with
  | some (l, []) => some (l.map fun p => (String.mk p.1, String.mk p.2))
  | _ => none

/-! ### TTL cache (model of the Redis client) -/

/-- One cached value with its absolute expiry instant. -/
structure CacheEntry where
  value : String
  expiry : Nat
  deriving DecidableEq, Repr

/-- The cache contents: newest binding for a key shadows older ones. -/
abbrev Cache := List (String × CacheEntry)

/-- `redis.get key` at time `now`: a live entry or `none`. -/
def cacheGet (cache : Cache) (now : Nat) (k : String) : Option String :=
  match cache.lookup k with
  | some e => if now < e.expiry then some e.value else none
  | none => none

/-- `redis.set key value ex=ttl` at time `now`. -/
def cacheSet (cache : Cache) (now : Nat) (k v : String) (ttl : Nat) : Cache :=
  (k, ⟨v, now + ttl⟩) :: cache

/-! ### The resolver `fetch_coin_metadata` -/

/-- What the external source does for one query: an HTTP response (status
code and parsed candidate list `data.get("coins", [])`), or a transport
failure such as a timeout. -/
inductive ExtResp where
  | ok (status : Nat) (coins : List Coin)
  | netFail
  deriving Repr

/-- How an operation fails: a raised `HTTPException` with its status code and
detail message, an uncaught `httpx` transport exception, an uncaught
`json.loads` exception, or an uncaught database error (`dbExc`: gino with
SQLAlchemy 1.3 compiles `crypto.update(**{}).apply()` to an empty-SET
`UPDATE`, which PostgreSQL rejects — and the empty RETURNING would raise
`NoSuchRowError` even otherwise). -/
inductive Failure where
  | http (status : Nat) (detail : String)
  | netExc
  | jsonExc
  | dbExc
  deriving DecidableEq, Repr

/-- Result of one resolver invocation: the outcome (`Except` failure, with
`none` meaning the source had no matching candidate), the cache afterwards,
and how many cache reads and external-source calls were made. -/
structure FetchResult where
  outcome : Except Failure (Option Coin)
  cache' : Cache
  cacheReads : Nat
  extCalls : Nat
  deriving Repr

/-- The cache key `f"coingecko:{symbol.lower()}"`. -/
def cacheKey (symbol : String) : String :=
  "coingecko:" ++ strLower symbol

/-- The selection predicate
`coin.get("symbol", "").lower() == symbol.lower()`. -/
def symMatch (symbol : String) (coin : Coin) : Bool :=
  strLower (dictGetD coin "symbol" "") == strLower symbol

/-- `fetch_coin_metadata(symbol)` from `src/main-git.py` lines 69–91:
check `redis_client is None`; read the cache (Python truthiness: an empty
cached string falls through to the miss path); on a miss call the search
endpoint, fail with 502 on a non-200 status, select the first
case-insensitively matching candidate, cache it for 3600 seconds under the
`if coin_info:` truthiness guard (an empty matched dict is returned without
being written), and return it (`none` when nothing matched). -/
def fetch_coin_metadata (avail : Bool) (ext : String → ExtResp) (cache : Cache)
    (now : Nat) (symbol : String) : FetchResult :=
  if avail then
    let key := cacheKey symbol
    let miss : FetchResult :=
      match ext symbol with
      | .netFail =>
        { outcome := .error .netExc, cache' := cache, cacheReads := 1, extCalls := 1 }
      | .ok status coins =>
        if status ≠ 200 then
          { outcome := .error (.http 502 "Chyba při volání Coingecko API"),
            cache' := cache, cacheReads := 1, extCalls := 1 }
        else
          match coins.find? (symMatch symbol) with
          | some coin =>
            { outcome := .ok (some coin),
              cache' := if coin.isEmpty then cache
                else cacheSet cache now key (dumps coin) 3600,
              cacheReads := 1, extCalls := 1 }
          | none =>
            { outcome := .ok none, cache' := cache, cacheReads := 1, extCalls := 1 }
    match cacheGet cache now key with
    | some cached =>
      if cached = "" then miss
      else
        match loads cached with
        | some r =>
          { outcome := .ok (some r), cache' := cache, cacheReads := 1, extCalls := 0 }
        | none =>
          { outcome := .error .jsonExc, cache' := cache, cacheReads := 1, extCalls := 0 }
    | none => miss
  else
    { outcome := .error (.http 500 "Redis client není k dispozici"),
      cache' := cache, cacheReads := 0, extCalls := 0 }

/-! ### Record store and request handlers -/

/-- A persisted `Crypto` row: numeric id, canonical (upper-case) symbol,
display name from the resolved metadata (`metadata.get("name")`, possibly
absent), and the full metadata dict. -/
structure CryptoEntity where
  id : Nat
  symbol : String
  name : Option String
  metadata : Coin
  deriving Repr

/-- `Crypto.query.where(Crypto.symbol == s).gino.first()`. -/
def findBySymbol (store : List CryptoEntity) (s : String) : Option CryptoEntity :=
  store.find? fun e => e.symbol == s

/-- `Crypto.get(id)`. -/
def getById (store : List CryptoEntity) (i : Nat) : Option CryptoEntity :=
  store.find? fun e => e.id == i

/-- Apply an in-place row update to the row with the given id. -/
def replaceById (store : List CryptoEntity) (i : Nat) (e : CryptoEntity) :
    List CryptoEntity :=
  store.map fun x => if x.id == i then e else x

/-- Result of one handler invocation: the outcome (the returned entity or the
failure), the record store and the cache afterwards, and how many cache reads
and external-source calls were made. -/
structure OpResult where
  outcome : Except Failure CryptoEntity
  store' : List CryptoEntity
  cache' : Cache
  cacheReads : Nat
  extCalls : Nat
  deriving Repr

/-- `POST /cryptos` (`create_crypto`, lines 97–108): reject a duplicate
canonical symbol with 409 before resolving; resolve; 404 when the resolver
found nothing (Python `if not metadata:` is also true for an empty dict);
otherwise insert a new row with the upper-cased symbol, the resolved name and
the full metadata.  `newId` is the id the database assigns to the new row. -/
def create_crypto (avail : Bool) (ext : String → ExtResp) (store : List CryptoEntity)
    (cache : Cache) (now : Nat) (newId : Nat) (symbol : String) : OpResult :=
  match findBySymbol store (strUpper symbol) with
  | some _ =>
    { outcome := .error (.http 409 "Kryptoměna se stejným symbolem již existuje"),
      store' := store, cache' := cache, cacheReads := 0, extCalls := 0 }
  | none =>
    let fr := fetch_coin_metadata avail ext cache now symbol
    match fr.outcome with
    | .error f =>
      { outcome := .error f, store' := store, cache' := fr.cache',
        cacheReads := fr.cacheReads, extCalls := fr.extCalls }
    | .ok none =>
      { outcome := .error (.http 404 "Kryptoměna se zadaným symbolem nebyla nalezena na Coingecko"),
        store' := store, cache' := fr.cache',
        cacheReads := fr.cacheReads, extCalls := fr.extCalls }
    | .ok (some coin) =>
      if coin.isEmpty then
        { outcome := .error (.http 404 "Kryptoměna se zadaným symbolem nebyla nalezena na Coingecko"),
          store' := store, cache' := fr.cache',
          cacheReads := fr.cacheReads, extCalls := fr.extCalls }
      else
        let e : CryptoEntity :=
          { id := newId, symbol := strUpper symbol, name := dictGet coin "name",
            metadata := coin }
        { outcome := .ok e, store' := store ++ [e], cache' := fr.cache',
          cacheReads := fr.cacheReads, extCalls := fr.extCalls }

/-- `PUT /cryptos/{id}` (`update_crypto`, lines 128–142): 404 when the row is
absent; when the body's symbol is falsy (`None` or the empty string) nothing
is resolved and no field changes, but line 141 still runs
`crypto.update(**{}).apply()`, whose empty-SET `UPDATE` raises an uncaught
database error (`dbExc`) instead of returning the row; otherwise resolve the
new symbol, 404 when nothing was found, and on success overwrite symbol,
name and metadata. -/
def update_crypto (avail : Bool) (ext : String → ExtResp) (store : List CryptoEntity)
    (cache : Cache) (now : Nat) (id : Nat) (symbol? : Option String) : OpResult :=
  match getById store id with
  | none =>
    { outcome := .error (.http 404 "Kryptoměna nenalezena"),
      store' := store, cache' := cache, cacheReads := 0, extCalls := 0 }
  | some e =>
    let falsy := match symbol? with
      | none => true
      | some s => s = ""
    if falsy then
      { outcome := .error .dbExc, store' := store, cache' := cache,
        cacheReads := 0, extCalls := 0 }
    else
      let s := symbol?.getD ""
      let fr := fetch_coin_metadata avail ext cache now s
      match fr.outcome with
      | .error f =>
        { outcome := .error f, store' := store, cache' := fr.cache',
          cacheReads := fr.cacheReads, extCalls := fr.extCalls }
      | .ok none =>
        { outcome := .error (.http 404 "Kryptoměna se zadaným symbolem nebyla nalezena na Coingecko"),
          store' := store, cache' := fr.cache',
          cacheReads := fr.cacheReads, extCalls := fr.extCalls }
      | .ok (some coin) =>
        if coin.isEmpty then
          { outcome := .error (.http 404 "Kryptoměna se zadaným symbolem nebyla nalezena na Coingecko"),
            store' := store, cache' := fr.cache',
            cacheReads := fr.cacheReads, extCalls := fr.extCalls }
        else
          let e' : CryptoEntity :=
            { e with symbol := strUpper s, name := dictGet coin "name", metadata := coin }
          { outcome := .ok e', store' := replaceById store id e', cache' := fr.cache',
            cacheReads := fr.cacheReads, extCalls := fr.extCalls }

/-- `POST /cryptos/{id}/refresh` (`refresh_crypto`, lines 154–163): 404 when
the row is absent; resolve the row's stored symbol; 404 when nothing was
found; on success overwrite name and metadata (the symbol is unchanged). -/
def refresh_crypto (avail : Bool) (ext : String → ExtResp) (store : List CryptoEntity)
    (cache : Cache) (now : Nat) (id : Nat) : OpResult :=
  match getById store id with
  | none =>
    { outcome := .error (.http 404 "Kryptoměna nenalezena"),
      store' := store, cache' := cache, cacheReads := 0, extCalls := 0 }
  | some e =>
    let fr := fetch_coin_metadata avail ext cache now e.symbol
    match fr.outcome with
    | .error f =>
      { outcome := .error f, store' := store, cache' := fr.cache',
        cacheReads := fr.cacheReads, extCalls := fr.extCalls }
    | .ok none =>
      { outcome := .error (.http 404 "Kryptoměna se zadaným symbolem nebyla nalezena při refreshi"),
        store' := store, cache' := fr.cache',
        cacheReads := fr.cacheReads, extCalls := fr.extCalls }
    | .ok (some coin) =>
      if coin.isEmpty then
        { outcome := .error (.http 404 "Kryptoměna se zadaným symbolem nebyla nalezena při refreshi"),
          store' := store, cache' := fr.cache',
          cacheReads := fr.cacheReads, extCalls := fr.extCalls }
      else
        let e' : CryptoEntity := { e with name := dictGet coin "name", metadata := coin }
        { outcome := .ok e', store' := replaceById store id e', cache' := fr.cache',
          cacheReads := fr.cacheReads, extCalls := fr.extCalls }

/-! ### Concrete fixtures used to instantiate the theorems -/

/-- A concrete candidate: the exact-match coin for the query `"BTC"`. -/
def coinBTC : Coin := [("symbol", "BTC"), ("name", "Bitcoin")]

/-- A concrete candidate whose symbol `"BTC2"` only has `"BTC"` as a proper
prefix. -/
def coinBTC2 : Coin := [("symbol", "BTC2"), ("name", "Bitcoin 2")]

/-- An external source answering every query with `[coinBTC2, coinBTC]`. -/
def extBTC : String → ExtResp := fun _ => .ok 200 [coinBTC2, coinBTC]

/-- An external source that times out on every query. -/
def extDown : String → ExtResp := fun _ => .netFail

/-- An external source answering every query with an empty candidate list. -/
def extNone : String → ExtResp := fun _ => .ok 200 []

/-- An external source answering every query with a 503 status. -/
def ext503 : String → ExtResp := fun _ => .ok 503 []

/-- An external source answering every query with a single falsy candidate:
the empty dict, which matches the query `""` but fails the `if coin_info:`
truthiness guard on the cache write. -/
def extFalsy : String → ExtResp := fun _ => .ok 200 [([] : Coin)]

/-- A record store holding one entity with canonical symbol `"BTC"`. -/
def storeBTC : List CryptoEntity :=
  [{ id := 1, symbol := "BTC", name := some "Bitcoin", metadata := coinBTC }]

/-! ### Round-trip and cache lemmas -/

theorem decS_encS (s rest : List Char) : decS (encS s ++ rest) = some (s, rest) := by
  induction s with
  | nil =>
    show decS (';' :: rest) = some ([], rest)
    rw [decS.eq_def]
    simp
  | cons c s ih =>
    have hx : encS (c :: s) ++ rest = escC c ++ (encS s ++ rest) := by
      simp [encS, List.append_assoc]
    rw [hx]
    by_cases h : c = '\\' ∨ c = ';'
    · rw [show escC c = ['\\', c] from if_pos h]
      show decS ('\\' :: c :: (encS s ++ rest)) = some (c :: s, rest)
      rw [decS.eq_def]
      simp [ih]
    · rw [show escC c = [c] from if_neg h]
      push_neg at h
      show decS (c :: (encS s ++ rest)) = some (c :: s, rest)
      rw [decS.eq_def]
      simp [h.1, h.2, ih]

theorem decL_encL (l : List (List Char × List Char)) (rest : List Char) (fuel : Nat)
    (h : l.length ≤ fuel) : decL fuel (encL l ++ rest) = some (l, rest) := by
  induction l generalizing fuel rest with
  | nil =>
    show decL fuel ('.' :: rest) = some ([], rest)
    rw [decL.eq_def]
    simp
  | cons p l ih =>
    cases fuel with
    | zero => simp at h
    | succ fuel' =>
      simp only [encL, List.cons_append, List.append_assoc]
      rw [decL.eq_def]
      simp [decS_encS, ih rest fuel' (by simpa using h)]

theorem encL_length_gt (l : List (List Char × List Char)) :
    l.length < (encL l).length := by
  induction l with
  | nil => simp [encL]
  | cons p l ih => simp [encL]; omega

theorem map_pack_unpack (c : Coin) :
    ((c.map fun p => (p.1.data, p.2.data)).map
      fun p => (String.mk p.1, String.mk p.2)) = c := by
  induction c with
  | nil => rfl
  | cons p c ih =>
    simp only [List.map_cons, ih]

theorem loads_dumps (c : Coin) : loads (dumps c) = some c := by
  unfold loads dumps
  have h := decL_encL (c.map fun p => (p.1.data, p.2.data)) []
    (encL (c.map fun p => (p.1.data, p.2.data))).length
    (le_of_lt (encL_length_gt _))
  rw [List.append_nil] at h
  rw [show (String.mk (encL (c.map fun p => (p.1.data, p.2.data)))).data
      = encL (c.map fun p => (p.1.data, p.2.data)) from rfl, h]
  exact congrArg some (map_pack_unpack c)

theorem encL_ne_nil (l : List (List Char × List Char)) : encL l ≠ [] := by
  cases l <;> simp [encL]

theorem dumps_ne_empty (c : Coin) : dumps c ≠ "" := by
  intro h
  exact encL_ne_nil _ (by simpa using congrArg String.data h)

theorem cacheGet_none_mono (cache : Cache) (now now2 : Nat) (k : String)
    (h : cacheGet cache now k = none) (hle : now ≤ now2) :
    cacheGet cache now2 k = none := by
  unfold cacheGet at h ⊢
  cases hl : cache.lookup k with
  | none => rfl
  | some e =>
    rw [hl] at h
    have h' : (if now < e.expiry then some e.value else none) = none := h
    show (if now2 < e.expiry then some e.value else none) = none
    split at h'
    · exact absurd h' (by simp)
    · next hge => rw [if_neg (by omega)]

theorem cacheGet_set_same (cache : Cache) (now now2 ttl : Nat) (k v : String) :
    cacheGet (cacheSet cache now k v ttl) now2 k =
      if now2 < now + ttl then some v else none := by
  simp [cacheGet, cacheSet, List.lookup]

theorem fetch_hit (ext : String → ExtResp) (cache : Cache) (now : Nat)
    (symbol : String) (r : Coin)
    (hhit : cacheGet cache now (cacheKey symbol) = some (dumps r)) :
    fetch_coin_metadata true ext cache now symbol =
      { outcome := .ok (some r), cache' := cache, cacheReads := 1, extCalls := 0 } := by
  simp [fetch_coin_metadata, hhit, dumps_ne_empty, loads_dumps]

theorem fetch_miss_found (ext : String → ExtResp) (cache : Cache) (now : Nat)
    (symbol : String) (coins : List Coin) (coin : Coin)
    (hmiss : cacheGet cache now (cacheKey symbol) = none)
    (hext : ext symbol = .ok 200 coins)
    (hsel : coins.find? (symMatch symbol) = some coin)
    (hne : coin ≠ []) :
    fetch_coin_metadata true ext cache now symbol =
      { outcome := .ok (some coin),
        cache' := cacheSet cache now (cacheKey symbol) (dumps coin) 3600,
        cacheReads := 1, extCalls := 1 } := by
  have hne' : coin.isEmpty = false := by
    cases coin with
    | nil => exact absurd rfl hne
    | cons a l => rfl
  simp [fetch_coin_metadata, hmiss, hext, hsel, hne']

/-! ### The claims -/

/-- Claim C1 counterexample: at symbol `""` the empty dict in the candidate
list is a (falsy) match: the first resolve returns it, but the
`if coin_info:` guard skips the cache write, so a second resolve 10 seconds
later — well within 3600 seconds — calls the external source again instead
of making zero external-source calls. -/
theorem falsy_match_breaks_second_resolve_caching :
    (fetch_coin_metadata true extFalsy [] 0 "").outcome = .ok (some ([] : Coin)) ∧
    (fetch_coin_metadata true extFalsy
        (fetch_coin_metadata true extFalsy [] 0 "").cache' 10 "").extCalls = 1 :=
  ⟨rfl, rfl⟩

/-- Claim C1 amended: when the cache lookup returns a stored value (a
serialized record — the only values the resolver ever stores), the resolver
deserializes it and returns it with zero external-source calls; and after a
first resolve that missed and found a truthy (non-empty) match, a second
resolve of the same symbol within 3600 seconds makes zero external-source
calls and returns the cached record.  (A falsy empty-dict match is returned
without being cached, so the second resolve calls the source again.) -/
theorem resolve_hit_short_circuits :
    (∀ (ext : String → ExtResp) (cache : Cache) (now : Nat) (symbol : String) (r : Coin),
      cacheGet cache now (cacheKey symbol) = some (dumps r) →
      fetch_coin_metadata true ext cache now symbol =
        { outcome := .ok (some r), cache' := cache, cacheReads := 1, extCalls := 0 })
    ∧ (∀ (ext1 ext2 : String → ExtResp) (cache : Cache) (now1 now2 : Nat)
        (symbol : String) (coins : List Coin) (coin : Coin),
      cacheGet cache now1 (cacheKey symbol) = none →
      ext1 symbol = .ok 200 coins →
      coins.find? (symMatch symbol) = some coin →
      coin ≠ [] →
      now2 < now1 + 3600 →
      (fetch_coin_metadata true ext1 cache now1 symbol).extCalls = 1 ∧
      fetch_coin_metadata true ext2
          (fetch_coin_metadata true ext1 cache now1 symbol).cache' now2 symbol =
        { outcome := .ok (some coin),
          cache' := (fetch_coin_metadata true ext1 cache now1 symbol).cache',
          cacheReads := 1, extCalls := 0 }) := by
  constructor
  · exact fun ext cache now symbol r hhit => fetch_hit ext cache now symbol r hhit
  · intro ext1 ext2 cache now1 now2 symbol coins coin hmiss hext hsel hne hlt
    have h1 := fetch_miss_found ext1 cache now1 symbol coins coin hmiss hext hsel hne
    rw [h1]
    refine ⟨rfl, ?_⟩
    exact fetch_hit ext2 _ now2 symbol coin
      (by rw [cacheGet_set_same, if_pos hlt])

/-- Claim C1 witness: resolving `"BTC"` against a fresh cache makes one
external call; resolving again 3599 seconds later makes zero external calls
and returns the cached record. -/
theorem resolve_hit_short_circuits_witness :
    (fetch_coin_metadata true extBTC [] 0 "BTC").extCalls = 1 ∧
    fetch_coin_metadata true extDown
        (fetch_coin_metadata true extBTC [] 0 "BTC").cache' 3599 "BTC" =
      { outcome := .ok (some coinBTC),
        cache' := (fetch_coin_metadata true extBTC [] 0 "BTC").cache',
        cacheReads := 1, extCalls := 0 } :=
  resolve_hit_short_circuits.2 extBTC extDown [] 0 3599 "BTC" [coinBTC2, coinBTC]
    coinBTC rfl rfl (by decide) (by decide) (by decide)

/-- Claim C2: on a cache miss with a successful external response, the
resolver returns candidate `coin` exactly when `coin` occurs in the candidate
sequence with its `symbol` field equal (case-insensitively, exact match) to
the query, and every earlier candidate's `symbol` field differs
case-insensitively from the query. -/
theorem resolve_selects_first_exact_match (ext : String → ExtResp)
    (cache : Cache) (now : Nat) (symbol : String) (coins : List Coin) (coin : Coin)
    (hmiss : cacheGet cache now (cacheKey symbol) = none)
    (hext : ext symbol = .ok 200 coins) :
    (fetch_coin_metadata true ext cache now symbol).outcome = .ok (some coin) ↔
      strLower (dictGetD coin "symbol" "") = strLower symbol ∧
      ∃ pre post, coins = pre ++ coin :: post ∧
        ∀ b ∈ pre, strLower (dictGetD b "symbol" "") ≠ strLower symbol := by
  have step : (fetch_coin_metadata true ext cache now symbol).outcome = .ok (some coin) ↔
      coins.find? (symMatch symbol) = some coin := by
    cases hf : coins.find? (symMatch symbol) with
    | some c => simp [fetch_coin_metadata, hmiss, hext, hf]
    | none => simp [fetch_coin_metadata, hmiss, hext, hf]
  rw [step, List.find?_eq_some]
  simp [symMatch]

/-- Claim C2 witness: for query `"BTC"` with candidates
`[coinBTC2, coinBTC]`, the resolver selects the second candidate, the exact
match, not the prefix match. -/
theorem resolve_selects_first_exact_match_witness :
    (fetch_coin_metadata true extBTC [] 0 "BTC").outcome = .ok (some coinBTC) :=
  (resolve_selects_first_exact_match extBTC [] 0 "BTC" [coinBTC2, coinBTC] coinBTC
    rfl rfl).mpr (by refine ⟨by decide, [coinBTC2], [], rfl, ?_⟩; decide)

/-- Claim C3 counterexample: at symbol `""` the empty dict matches (falsy),
the resolver returns it, yet the `if coin_info:` guard performs no cache
write — the cache is unchanged, refuting the unconditional-write claim. -/
theorem falsy_match_skips_cache_write :
    (fetch_coin_metadata true extFalsy [] 0 "").outcome = .ok (some ([] : Coin)) ∧
    (fetch_coin_metadata true extFalsy [] 0 "").cache' = [] :=
  ⟨rfl, rfl⟩

/-- Claim C3 amended: on a cache miss where a candidate matches, if the
matched candidate is truthy (non-empty) the resolver writes the serialized
full candidate to the cache under the symbol's cache key with expiry
`now + 3600` (fixed TTL of 3600 seconds) and returns it; an empty (falsy)
matched candidate is returned without any cache write. -/
theorem resolve_miss_match_caches_3600 (ext : String → ExtResp) (cache : Cache)
    (now : Nat) (symbol : String) (coins : List Coin) (coin : Coin)
    (hmiss : cacheGet cache now (cacheKey symbol) = none)
    (hext : ext symbol = .ok 200 coins)
    (hsel : coins.find? (symMatch symbol) = some coin) :
    (coin ≠ [] →
      fetch_coin_metadata true ext cache now symbol =
        { outcome := .ok (some coin),
          cache' := (cacheKey symbol, ⟨dumps coin, now + 3600⟩) :: cache,
          cacheReads := 1, extCalls := 1 })
    ∧ (coin = [] →
      fetch_coin_metadata true ext cache now symbol =
        { outcome := .ok (some coin), cache' := cache,
          cacheReads := 1, extCalls := 1 }) := by
  constructor
  · intro hne
    exact fetch_miss_found ext cache now symbol coins coin hmiss hext hsel hne
  · intro he
    subst he
    simp [fetch_coin_metadata, hmiss, hext, hsel]

/-- Claim C3 witness: resolving `"BTC"` at time 5 against a fresh cache
stores the serialized matched candidate under `coingecko:btc` with expiry
`5 + 3600` and returns it; resolving `""` against the falsy candidate
returns it with no cache write. -/
theorem resolve_miss_match_caches_3600_witness :
    fetch_coin_metadata true extBTC [] 5 "BTC" =
      { outcome := .ok (some coinBTC),
        cache' := [(cacheKey "BTC", ⟨dumps coinBTC, 5 + 3600⟩)],
        cacheReads := 1, extCalls := 1 } ∧
    fetch_coin_metadata true extFalsy [] 5 "" =
      { outcome := .ok (some ([] : Coin)), cache' := [],
        cacheReads := 1, extCalls := 1 } :=
  ⟨(resolve_miss_match_caches_3600 extBTC [] 5 "BTC" [coinBTC2, coinBTC] coinBTC
      rfl rfl (by decide)).1 (by decide),
   (resolve_miss_match_caches_3600 extFalsy [] 5 "" [([] : Coin)] []
      rfl rfl rfl).2 rfl⟩

/-- Claim C4: two symbols that agree up to letter case produce the same
cache key, and a record cached under that key is returned, with zero
external-source calls, by a resolve of either symbol. -/
theorem cache_key_case_insensitive (s t : String)
    (h : strLower s = strLower t) :
    cacheKey s = cacheKey t ∧
    ∀ (ext1 ext2 : String → ExtResp) (cache : Cache) (now : Nat) (r : Coin),
      cacheGet cache now (cacheKey s) = some (dumps r) →
      fetch_coin_metadata true ext1 cache now s =
        { outcome := .ok (some r), cache' := cache, cacheReads := 1, extCalls := 0 } ∧
      fetch_coin_metadata true ext2 cache now t =
        { outcome := .ok (some r), cache' := cache, cacheReads := 1, extCalls := 0 } := by
  have hk : cacheKey s = cacheKey t := by unfold cacheKey; rw [h]
  refine ⟨hk, fun ext1 ext2 cache now r hhit => ⟨?_, ?_⟩⟩
  · exact fetch_hit ext1 cache now s r hhit
  · exact fetch_hit ext2 cache now t r (hk ▸ hhit)

/-- Claim C4 witness: `"btc"` and `"BTC"` share the cache key
`coingecko:btc`, and a record cached by resolving one is returned when
resolving the other. -/
theorem cache_key_case_insensitive_witness :
    cacheKey "btc" = cacheKey "BTC" ∧
    (fetch_coin_metadata true extDown
        (cacheSet [] 0 (cacheKey "btc") (dumps coinBTC) 3600) 10 "btc" =
      { outcome := .ok (some coinBTC),
        cache' := cacheSet [] 0 (cacheKey "btc") (dumps coinBTC) 3600,
        cacheReads := 1, extCalls := 0 } ∧
    fetch_coin_metadata true extBTC
        (cacheSet [] 0 (cacheKey "btc") (dumps coinBTC) 3600) 10 "BTC" =
      { outcome := .ok (some coinBTC),
        cache' := cacheSet [] 0 (cacheKey "btc") (dumps coinBTC) 3600,
        cacheReads := 1, extCalls := 0 }) :=
  ⟨(cache_key_case_insensitive "btc" "BTC" (by decide)).1,
    (cache_key_case_insensitive "btc" "BTC" (by decide)).2 extDown extBTC
      (cacheSet [] 0 (cacheKey "btc") (dumps coinBTC) 3600) 10 coinBTC (by decide)⟩

/-- Claim C5: on a cache miss where no candidate matches, the resolver
returns "not found" (`none`) and leaves the cache unchanged, so any later
resolve of the same symbol calls the external source again — negative
results are never cached. -/
theorem resolve_no_match_not_cached (ext : String → ExtResp) (cache : Cache)
    (now : Nat) (symbol : String) (coins : List Coin)
    (hmiss : cacheGet cache now (cacheKey symbol) = none)
    (hext : ext symbol = .ok 200 coins)
    (hsel : coins.find? (symMatch symbol) = none) :
    fetch_coin_metadata true ext cache now symbol =
      { outcome := .ok none, cache' := cache, cacheReads := 1, extCalls := 1 } ∧
    ∀ (ext2 : String → ExtResp) (now2 : Nat), now ≤ now2 →
      (fetch_coin_metadata true ext2 cache now2 symbol).extCalls = 1 := by
  constructor
  · simp [fetch_coin_metadata, hmiss, hext, hsel]
  · intro ext2 now2 hle
    have h2 := cacheGet_none_mono cache now now2 (cacheKey symbol) hmiss hle
    cases hx : ext2 symbol with
    | netFail => simp [fetch_coin_metadata, h2, hx]
    | ok st cs =>
      by_cases hst : st = 200
      · subst hst
        cases hf : cs.find? (symMatch symbol) <;>
          simp [fetch_coin_metadata, h2, hx, hf]
      · simp [fetch_coin_metadata, h2, hx, hst]

/-- Claim C5 witness: resolving `"BTC"` against a source with no candidates
returns `none`, writes nothing, and an immediate second resolve calls the
source again. -/
theorem resolve_no_match_not_cached_witness :
    fetch_coin_metadata true extNone [] 0 "BTC" =
      { outcome := .ok none, cache' := [], cacheReads := 1, extCalls := 1 } ∧
    (fetch_coin_metadata true extNone [] 0 "BTC").extCalls = 1 := by
  have h := resolve_no_match_not_cached extNone [] 0 "BTC" [] rfl rfl rfl
  exact ⟨h.1, by rw [h.1]⟩

/-- Claim C9: when the cache backend is not available (`redis_client is
None`), the resolver fails fast with the cache-unavailable error (HTTP 500,
before any cache read), and no fallback path calls the external source. -/
theorem resolve_cache_unavailable_fails_fast (ext : String → ExtResp)
    (cache : Cache) (now : Nat) (symbol : String) :
    fetch_coin_metadata false ext cache now symbol =
      { outcome := .error (.http 500 "Redis client není k dispozici"),
        cache' := cache, cacheReads := 0, extCalls := 0 } := rfl

/-- Claim C6 counterexample: when the external call times out, the resolver
does not produce the 502 `UpstreamUnavailable` failure the claim describes;
the uncaught transport exception propagates instead (a 500-style unhandled
error). -/
theorem upstream_timeout_not_502 :
    (fetch_coin_metadata true extDown [] 0 "BTC").outcome = .error .netExc ∧
    Failure.netExc ≠ .http 502 "Chyba při volání Coingecko API" := by
  exact ⟨rfl, by decide⟩

/-- Claim C6 amended: on a cache miss, a non-success (non-200) status from
the external source fails with the 502 `UpstreamUnavailable` error and no
cache write; a transport failure (network error / timeout) propagates as the
uncaught transport exception — distinct from "not found" and from the 502
error — also with no cache write. -/
theorem upstream_failure_propagates (ext : String → ExtResp) (cache : Cache)
    (now : Nat) (symbol : String)
    (hmiss : cacheGet cache now (cacheKey symbol) = none) :
    (∀ (status : Nat) (coins : List Coin), ext symbol = .ok status coins →
      status ≠ 200 →
      fetch_coin_metadata true ext cache now symbol =
        { outcome := .error (.http 502 "Chyba při volání Coingecko API"),
          cache' := cache, cacheReads := 1, extCalls := 1 })
    ∧ (ext symbol = .netFail →
      fetch_coin_metadata true ext cache now symbol =
        { outcome := .error .netExc, cache' := cache, cacheReads := 1, extCalls := 1 }) := by
  constructor
  · intro status coins hext hst
    simp [fetch_coin_metadata, hmiss, hext, hst]
  · intro hext
    simp [fetch_coin_metadata, hmiss, hext]

/-- Claim C6 amended witness: a 503 response yields the 502 failure with no
cache write; a timeout yields the transport exception with no cache write. -/
theorem upstream_failure_propagates_witness :
    fetch_coin_metadata true ext503 [] 0 "BTC" =
        { outcome := .error (.http 502 "Chyba při volání Coingecko API"),
          cache' := [], cacheReads := 1, extCalls := 1 } ∧
    fetch_coin_metadata true extDown [] 0 "BTC" =
        { outcome := .error .netExc, cache' := [], cacheReads := 1, extCalls := 1 } :=
  ⟨(upstream_failure_propagates ext503 [] 0 "BTC" rfl).1 503 [] rfl (by decide),
   (upstream_failure_propagates extDown [] 0 "BTC" rfl).2 rfl⟩

/-- Claim C7: creating a record whose canonical (upper-cased) symbol already
exists returns the 409 duplicate conflict, performs no cache read and no
external-source call (the duplicate check precedes resolution), and leaves
the record store and the cache unchanged. -/
theorem create_duplicate_conflict (avail : Bool) (ext : String → ExtResp)
    (store : List CryptoEntity) (cache : Cache) (now newId : Nat)
    (symbol : String) (e : CryptoEntity)
    (hdup : findBySymbol store (strUpper symbol) = some e) :
    create_crypto avail ext store cache now newId symbol =
      { outcome := .error (.http 409 "Kryptoměna se stejným symbolem již existuje"),
        store' := store, cache' := cache, cacheReads := 0, extCalls := 0 } := by
  simp [create_crypto, hdup]

/-- Claim C7 witness: creating `"btc"` while an entity with canonical symbol
`"BTC"` exists conflicts with 409, with zero external calls and no store
mutation. -/
theorem create_duplicate_conflict_witness :
    create_crypto true extBTC storeBTC [] 0 2 "btc" =
      { outcome := .error (.http 409 "Kryptoměna se stejným symbolem již existuje"),
        store' := storeBTC, cache' := [], cacheReads := 0, extCalls := 0 } :=
  create_duplicate_conflict true extBTC storeBTC [] 0 2 "btc"
    { id := 1, symbol := "BTC", name := some "Bitcoin", metadata := coinBTC } rfl

/-- Claim C8: for an existing entity, when the resolver fails (any raised
failure, including the 502 upstream error) or returns "not found", a refresh
— and likewise an update carrying a new non-empty symbol — aborts with the
corresponding failure and leaves the record store completely unmodified. -/
theorem failed_resolution_leaves_entity_unmodified (avail : Bool)
    (ext : String → ExtResp) (store : List CryptoEntity) (cache : Cache)
    (now id : Nat) (e : CryptoEntity)
    (hget : getById store id = some e) :
    (∀ f, (fetch_coin_metadata avail ext cache now e.symbol).outcome = .error f →
      (refresh_crypto avail ext store cache now id).outcome = .error f ∧
      (refresh_crypto avail ext store cache now id).store' = store)
    ∧ ((fetch_coin_metadata avail ext cache now e.symbol).outcome = .ok none →
      (refresh_crypto avail ext store cache now id).outcome =
        .error (.http 404 "Kryptoměna se zadaným symbolem nebyla nalezena při refreshi") ∧
      (refresh_crypto avail ext store cache now id).store' = store)
    ∧ (∀ s, s ≠ "" →
      (∀ f, (fetch_coin_metadata avail ext cache now s).outcome = .error f →
        (update_crypto avail ext store cache now id (some s)).outcome = .error f ∧
        (update_crypto avail ext store cache now id (some s)).store' = store)
      ∧ ((fetch_coin_metadata avail ext cache now s).outcome = .ok none →
        (update_crypto avail ext store cache now id (some s)).outcome =
          .error (.http 404 "Kryptoměna se zadaným symbolem nebyla nalezena na Coingecko") ∧
        (update_crypto avail ext store cache now id (some s)).store' = store)) := by
  refine ⟨?_, ?_, ?_⟩
  · intro f hf
    constructor <;> simp [refresh_crypto, hget, hf]
  · intro hf
    constructor <;> simp [refresh_crypto, hget, hf]
  · intro s hs
    refine ⟨?_, ?_⟩
    · intro f hf
      constructor <;> simp [update_crypto, hget, hs, hf]
    · intro hf
      constructor <;> simp [update_crypto, hget, hs, hf]

/-- Claim C8 witness: refreshing the stored `"BTC"` entity while the source
returns no candidates fails with the refresh 404 and leaves the store
unmodified; updating it to symbol `"eth"` while the source times out fails
with the transport exception and leaves the store unmodified. -/
theorem failed_resolution_leaves_entity_unmodified_witness :
    ((refresh_crypto true extNone storeBTC [] 0 1).outcome =
      .error (.http 404 "Kryptoměna se zadaným symbolem nebyla nalezena při refreshi") ∧
    (refresh_crypto true extNone storeBTC [] 0 1).store' = storeBTC) ∧
    ((update_crypto true extDown storeBTC [] 0 1 (some "eth")).outcome =
      .error .netExc ∧
    (update_crypto true extDown storeBTC [] 0 1 (some "eth")).store' = storeBTC) :=
  ⟨(failed_resolution_leaves_entity_unmodified true extNone storeBTC [] 0 1
      { id := 1, symbol := "BTC", name := some "Bitcoin", metadata := coinBTC }
      rfl).2.1 rfl,
   ((failed_resolution_leaves_entity_unmodified true extDown storeBTC [] 0 1
      { id := 1, symbol := "BTC", name := some "Bitcoin", metadata := coinBTC }
      rfl).2.2 "eth" (by decide)).1 .netExc rfl⟩

/-- Claim C10 counterexample: a PUT with no symbol on the stored `"BTC"`
entity does not return the entity successfully — the empty update statement
raises the uncaught database error. -/
theorem update_empty_body_not_successful :
    (update_crypto true extDown storeBTC [] 0 1 none).outcome = .error .dbExc ∧
    (update_crypto true extDown storeBTC [] 0 1 none).outcome ≠
      .ok { id := 1, symbol := "BTC", name := some "Bitcoin",
            metadata := coinBTC } := by
  refine ⟨rfl, fun h => ?_⟩
  rw [show (update_crypto true extDown storeBTC [] 0 1 none).outcome
      = .error .dbExc from rfl] at h
  exact Except.noConfusion h

/-- Claim C10 amended: a PUT whose body carries no symbol (or a falsy
empty-string symbol) on an existing entity performs no resolver call, no
cache read and no external-source call, and leaves the record store (hence
every field of the entity) and the cache unchanged — but it does not return
the entity successfully: the handler still executes
`crypto.update(**{}).apply()`, whose empty-SET `UPDATE` raises an uncaught
database error, failing the request. -/
theorem update_falsy_symbol_raises_db_error (avail : Bool) (ext : String → ExtResp)
    (store : List CryptoEntity) (cache : Cache) (now id : Nat)
    (e : CryptoEntity) (symbol? : Option String)
    (hget : getById store id = some e)
    (hfalsy : symbol? = none ∨ symbol? = some "") :
    update_crypto avail ext store cache now id symbol? =
      { outcome := .error .dbExc, store' := store, cache' := cache,
        cacheReads := 0, extCalls := 0 } := by
  rcases hfalsy with h | h <;> subst h <;> simp [update_crypto, hget]

/-- Claim C10 amended witness: a PUT with no symbol, and a PUT with the
empty-string symbol, both fail with the uncaught database error, with zero
cache and external activity and the store unchanged. -/
theorem update_falsy_symbol_raises_db_error_witness :
    update_crypto true extDown storeBTC [] 0 1 none =
      { outcome := .error .dbExc, store' := storeBTC, cache' := [],
        cacheReads := 0, extCalls := 0 } ∧
    update_crypto true extDown storeBTC [] 0 1 (some "") =
      { outcome := .error .dbExc, store' := storeBTC, cache' := [],
        cacheReads := 0, extCalls := 0 } :=
  ⟨update_falsy_symbol_raises_db_error true extDown storeBTC [] 0 1
      { id := 1, symbol := "BTC", name := some "Bitcoin", metadata := coinBTC }
      none rfl (Or.inl rfl),
   update_falsy_symbol_raises_db_error true extDown storeBTC [] 0 1
      { id := 1, symbol := "BTC", name := some "Bitcoin", metadata := coinBTC }
      (some "") rfl (Or.inr rfl)⟩

end CryptoService
